import Mathlib

/-!
# Callback dispatch bridge of the scripting interface

A shallow embedding of `src/visitpy/common/CallbackHandlers.C`.

Conventions of the embedding.

* A nullable pointer is an `Option`; `NULL` / `0` is `none`.
* A C-style downcast of a `void *` or `Subject *` argument is rendered by giving the
  parameter the type it is cast to.  An upcast is the projection to the parent structure.
* The interpreter is an effect: every function that talks to it returns the list of
  interpreter operations it performed, in order (`Event`).  What a call into the
  interpreter returns is supplied by the `Python` oracle.
* A tuple is the list of its slots; a slot of a freshly made tuple is `NULL`.
* Classes whose declarations live in headers outside this file (`CallbackManager`,
  `ViewerRPCCallbacks`, `ViewerProxy`, `ViewerState`, the plugin managers and the
  scripting plugin info) are structures holding exactly the member functions the
  source calls.
-/

namespace CallbackHandlers

/-! ## Data model -/

/-- An observable object; `addr` is the address of the object. -/
structure Subject where
  addr : Nat
  deriving DecidableEq, Repr

/-- A state object: a `Subject` that knows the name of its type. -/
structure AttributeSubject extends Subject where
  TypeName : String
  deriving DecidableEq, Repr

/-- The viewer RPC state object; `GetRPCType` is the value of its RPC type enumeration. -/
structure ViewerRPC extends AttributeSubject where
  GetRPCType : Nat
  deriving DecidableEq, Repr

/-- An entry of a method table of the interpreter (`PyMethodDef`): its name and the
address of the C function it names. -/
structure PyMethodDef where
  ml_name : String
  ml_meth : Nat
  deriving DecidableEq, Repr

/-- Interpreter objects, as far as the bridge tells them apart. -/
inductive PyObject where
  /-- the `Py_None` singleton -/
  | None : PyObject
  /-- the result of `PyLong_FromLong` -/
  | Long (v : Int) : PyObject
  /-- a tuple, given by its slots -/
  | Tuple (items : List (Option PyObject)) : PyObject
  /-- the result of `PyCFunction_New(method, self)` -/
  | CFunction (method : PyMethodDef) (self : PyObject) : PyObject
  /-- any other object, by identity -/
  | Object (id : Nat) : PyObject

/-- Operations on the interpreter, in the order the code performs them. -/
inductive Event where
  | Py_INCREF (o : Option PyObject) : Event
  | Py_DECREF (o : PyObject) : Event
  /-- the call `PyObject_Call(callable, args, NULL)` -/
  | PyObject_Call (callable : PyObject) (args : PyObject) : Event
  /-- the call `PyObject_CallObject(callable, args)` -/
  | PyObject_CallObject (callable : PyObject) (args : Option PyObject) : Event
  /-- a line written to `cerr` -/
  | cerr (line : String) : Event
  | PyErr_Print : Event

/-- What the interpreter answers to a call: the returned object, or `NULL` when the
call raised. -/
structure Python where
  PyObject_Call : PyObject → PyObject → Option PyObject
  PyObject_CallObject : PyObject → Option PyObject → Option PyObject

/-- The calls into user code among a list of events. -/
def pyCalls : List Event → List Event
  | [] => []
  | Event.PyObject_Call f a :: es => Event.PyObject_Call f a :: pyCalls es
  | Event.PyObject_CallObject f a :: es => Event.PyObject_CallObject f a :: pyCalls es
  | _ :: es => pyCalls es

/-- The C API call `PyTuple_New(n)`: a tuple of `n` empty slots. -/
def PyTuple_New (n : Nat) : List (Option PyObject) :=
  List.replicate n none

/-- The C API call `PyTuple_SET_ITEM(tuple, i, v)`. -/
def PyTuple_SET_ITEM (tuple : List (Option PyObject)) (i : Nat) (v : Option PyObject) :
    List (Option PyObject) :=
  tuple.set i v

/-- The C API call `PyTuple_GET_ITEM(tuple, i)`. -/
def PyTuple_GET_ITEM (tuple : List (Option PyObject)) (i : Nat) : Option PyObject :=
  tuple.getD i none

/-- The C API call `PyTuple_Size(tuple)`. -/
def PyTuple_Size (tuple : List (Option PyObject)) : Nat :=
  tuple.length

/-- The object `ViewerRPCCallbacks`: per RPC type, the installed callback and its data. -/
structure ViewerRPCCallbacks where
  GetCallback : Nat → Option PyObject
  GetCallbackData : Nat → Option PyObject

/-- The object `CallbackManager`, as far as it is queried: the callback installed for a
subject. -/
structure CallbackManager where
  GetCallback : Subject → Option PyObject

/-- The scripting part of a plugin: `AllocAttributes()` and `GetMethodTable(&nMethods)`,
the latter as the count it stores and the array it returns. -/
structure ScriptingPluginInfo where
  AllocAttributes : AttributeSubject
  nMethods : Nat
  methodTable : Nat → PyMethodDef

/-- A plot or operator plugin manager. -/
structure PluginManager where
  GetNEnabledPlugins : Nat
  GetEnabledID : Nat → String
  GetScriptingPluginInfo : String → Option ScriptingPluginInfo

/-- The object `ViewerState`: `Get` is the family of accessors `Get<Obj>()`, indexed by
the token `Obj`. -/
structure ViewerState where
  GetLogRPC : ViewerRPC
  Get : String → AttributeSubject
  GetNumPlotStateObjects : Nat
  GetPlotAttributes : Nat → AttributeSubject
  GetNumOperatorStateObjects : Nat
  GetOperatorAttributes : Nat → AttributeSubject

/-- The object `ViewerProxy`. -/
structure ViewerProxy where
  GetPlotPluginManager : PluginManager
  GetOperatorPluginManager : PluginManager
  GetViewerState : ViewerState

/-- The record `CallbackManager::CallbackHandlerData` handed to a handler; `D` and `U`
are the types the handler casts `data` and `userdata` to. -/
structure CallbackHandlerData (D U : Type) where
  pycb : Option PyObject
  pycb_data : Option PyObject
  data : D
  userdata : U
  viewer : ViewerProxy

/-! ## The table of supported state objects -/

/-- One `CALLBACK_ACTION(Obj, T, PyWrap)` line of the table. -/
structure StateObjectEntry where
  Obj : String
  T : String
  PyWrap : String
  deriving DecidableEq, Repr

/-- The table `SUPPORTED_STATE_OBJECTS`. -/
def SUPPORTED_STATE_OBJECTS : List StateObjectEntry :=
  [ ⟨"AnimationAttributes", "AnimationAttributes", "PyAnimationAttributes_Wrap"⟩,
    ⟨"AnnotationAttributes", "AnnotationAttributes", "PyAnnotationAttributes_Wrap"⟩,
    ⟨"ColorTableAttributes", "ColorTableAttributes", "PyColorTableAttributes_Wrap"⟩,
    ⟨"ConstructDataBinningAttributes", "ConstructDataBinningAttributes",
      "PyConstructDataBinningAttributes_Wrap"⟩,
    ⟨"ExportDBAttributes", "ExportDBAttributes", "PyExportDBAttributes_Wrap"⟩,
    ⟨"ExpressionList", "ExpressionList", "PyExpressionList_Wrap"⟩,
    ⟨"FileOpenOptions", "FileOpenOptions", "PyFileOpenOptions_Wrap"⟩,
    ⟨"GlobalAttributes", "GlobalAttributes", "PyGlobalAttributes_Wrap"⟩,
    ⟨"GlobalLineoutAttributes", "GlobalLineoutAttributes", "PyGlobalLineoutAttributes_Wrap"⟩,
    ⟨"InteractorAttributes", "InteractorAttributes", "PyInteractorAttributes_Wrap"⟩,
    ⟨"KeyframeAttributes", "KeyframeAttributes", "PyKeyframeAttributes_Wrap"⟩,
    ⟨"MaterialAttributes", "MaterialAttributes", "PyMaterialAttributes_Wrap"⟩,
    ⟨"MeshManagementAttributes", "MeshManagementAttributes",
      "PyMeshManagementAttributes_Wrap"⟩,
    ⟨"PickAttributes", "PickAttributes", "PyPickAttributes_Wrap"⟩,
    ⟨"PlotList", "PlotList", "PyPlotList_Wrap"⟩,
    ⟨"PrinterAttributes", "PrinterAttributes", "PyPrinterAttributes_Wrap"⟩,
    ⟨"ProcessAttributes", "ProcessAttributes", "PyProcessAttributes_Wrap"⟩,
    ⟨"QueryAttributes", "QueryAttributes", "PyQueryAttributes_Wrap"⟩,
    ⟨"QueryOverTimeAttributes", "QueryOverTimeAttributes", "PyQueryOverTimeAttributes_Wrap"⟩,
    ⟨"RenderingAttributes", "RenderingAttributes", "PyRenderingAttributes_Wrap"⟩,
    ⟨"SaveWindowAttributes", "SaveWindowAttributes", "PySaveWindowAttributes_Wrap"⟩,
    ⟨"View2DAttributes", "View2DAttributes", "PyView2DAttributes_Wrap"⟩,
    ⟨"View3DAttributes", "View3DAttributes", "PyView3DAttributes_Wrap"⟩,
    ⟨"ViewCurveAttributes", "ViewCurveAttributes", "PyViewCurveAttributes_Wrap"⟩,
    ⟨"WindowInformation", "WindowInformation", "PyWindowInformation_Wrap"⟩,
    ⟨"DatabaseMetaData", "avtDatabaseMetaData", "PyavtDatabaseMetaData_Wrap"⟩ ]

/-! ## Default handlers -/

/-- The handler `default_handler_<Obj>` generated for the table line `e`.  `wrappers`
gives, for the name of a wrapper function of the bindings, the function itself. -/
def default_handler {U : Type} (py : Python) (wrappers : String → AttributeSubject → PyObject)
    (e : StateObjectEntry) (_subj : Subject)
    (cbData : CallbackHandlerData AttributeSubject U) : List Event :=
  match cbData.pycb with
  | none => []
  | some pycb =>
    let tuple := PyTuple_New (if cbData.pycb_data.isSome then 2 else 1)
    let state := wrappers e.PyWrap cbData.data
    let filled : List Event × List (Option PyObject) :=
      match cbData.pycb_data with
      | some d =>
        ([Event.Py_INCREF (some d)],
          PyTuple_SET_ITEM (PyTuple_SET_ITEM tuple 0 (some state)) 1 (some d))
      | none => ([], PyTuple_SET_ITEM tuple 0 (some state))
    let ret := py.PyObject_Call pycb (PyObject.Tuple filled.2)
    filled.1
      ++ [Event.PyObject_Call pycb (PyObject.Tuple filled.2),
          Event.Py_DECREF (PyObject.Tuple filled.2)]
      ++ (match ret with
          | some r => [Event.Py_DECREF r]
          | none => [])

/-! ## Work predicates -/

/-- The predicate `ViewerRPC_addwork_callback(subj, ptr)`. -/
def ViewerRPC_addwork_callback (subj : ViewerRPC) (ptr : ViewerRPCCallbacks) : Bool :=
  let rpc := subj
  let cb := ptr
  (cb.GetCallback rpc.GetRPCType).isSome

/-- The predicate `StateObject_addwork_callback(subj, ptr)`. -/
def StateObject_addwork_callback (subj : Subject) (ptr : CallbackManager) : Bool :=
  let mgr := ptr
  (mgr.GetCallback subj).isSome

/-! ## Constructor lookup -/

/-- The first loop of `GetPlotConstructorFunction` / `GetOperatorConstructorFunction`,
from index `i` on: the value `pluginIndex` has when the loop is left (`-1` when no plugin
matched).  `fuel` bounds the number of iterations and is set to the number of enabled
plugins by the callers. -/
def pluginIndexLoop (pluginManager : PluginManager) (subj : AttributeSubject) :
    (fuel i : Nat) → Int
  | 0, _ => -1
  | fuel + 1, i =>
    if i < pluginManager.GetNEnabledPlugins then
      let id := pluginManager.GetEnabledID i
      match pluginManager.GetScriptingPluginInfo id with
      | none => pluginIndexLoop pluginManager subj fuel (i + 1)
      | some info =>
        let pluginAtts := info.AllocAttributes
        if pluginAtts.TypeName = subj.TypeName then (i : Int)
        else pluginIndexLoop pluginManager subj fuel (i + 1)
    else -1

/-- The second loop of the two lookup functions, from entry `m` on: the value `retval`
has when the loop is left. -/
def methodLoop (info : ScriptingPluginInfo) (subj : AttributeSubject) :
    (fuel m : Nat) → Option PyObject
  | 0, _ => none
  | fuel + 1, m =>
    if m < info.nMethods then
      let method := info.methodTable m
      if subj.TypeName = method.ml_name then
        some (PyObject.CFunction method PyObject.None)
      else methodLoop info subj fuel (m + 1)
    else none

/-- The body shared, word for word, by `GetPlotConstructorFunction` and
`GetOperatorConstructorFunction`, for the plugin manager each of them fetches.  The
source uses the scripting info of plugin `pluginIndex` without a null test; the first
loop has seen it non-null, so the `none` branch of the second fetch is never taken. -/
def constructorFunction (pluginManager : PluginManager) (subj : AttributeSubject) :
    Option PyObject :=
  let pluginIndex := pluginIndexLoop pluginManager subj pluginManager.GetNEnabledPlugins 0
  if pluginIndex ≠ -1 then
    let id := pluginManager.GetEnabledID pluginIndex.toNat
    match pluginManager.GetScriptingPluginInfo id with
    | none => none
    | some info => methodLoop info subj info.nMethods 0
  else none

/-- The function `GetPlotConstructorFunction(subj, viewer)`. -/
def GetPlotConstructorFunction (subj : AttributeSubject) (viewer : ViewerProxy) :
    Option PyObject :=
  constructorFunction viewer.GetPlotPluginManager subj

/-- The function `GetOperatorConstructorFunction(subj, viewer)`. -/
def GetOperatorConstructorFunction (subj : AttributeSubject) (viewer : ViewerProxy) :
    Option PyObject :=
  constructorFunction viewer.GetOperatorPluginManager subj

/-- The function `GetPyObjectPluginAttributes(subj, useCurrent, viewer)`: the returned
object and the interpreter operations performed. -/
def GetPyObjectPluginAttributes (py : Python) (subj : AttributeSubject) (useCurrent : Bool)
    (viewer : ViewerProxy) : Option PyObject × List Event :=
  let ctor := GetPlotConstructorFunction subj viewer
  let ctor :=
    match ctor with
    | none => GetOperatorConstructorFunction subj viewer
    | some c => some c
  match ctor with
  | none => (none, [])
  | some ctor =>
    let tuple := PyTuple_SET_ITEM (PyTuple_New 1) 0
      (some (PyObject.Long (if useCurrent then 1 else 0)))
    let state := py.PyObject_Call ctor (PyObject.Tuple tuple)
    (state,
      [Event.PyObject_Call ctor (PyObject.Tuple tuple),
       Event.Py_DECREF (PyObject.Tuple tuple),
       Event.Py_DECREF ctor])

/-! ## The viewer RPC handler -/

/-- The loop of `ViewerRPC_callback` that copies the items of `args` into the enlarged
tuple, from index `i` on: the reference count operations, and the tuple afterwards.
`Py_INCREF` dereferences its argument, so on an empty slot of `args` the loop does not
go on: the operations end with that `Py_INCREF` of `NULL` and there is no tuple. -/
def copyItemsLoop (args : List (Option PyObject)) :
    (fuel i : Nat) → List (Option PyObject) →
      List Event × Option (List (Option PyObject))
  | 0, _, tuple => ([], some tuple)
  | fuel + 1, i, tuple =>
    if i < PyTuple_Size args then
      match PyTuple_GET_ITEM args i with
      | none => ([Event.Py_INCREF none], none)
      | some item =>
        let rest := copyItemsLoop args fuel (i + 1)
          (PyTuple_SET_ITEM tuple i (some item))
        (Event.Py_INCREF (some item) :: rest.1, rest.2)
    else ([], some tuple)

/-- The handler `ViewerRPC_callback(subj, data)`.  `args_ViewerRPC` is the external
function of that name.  When the copying loop stops at an empty slot, the handler does
not go on either: its operations are those of the loop, the last one being the
`Py_INCREF` of `NULL`. -/
def ViewerRPC_callback (py : Python) (args_ViewerRPC : ViewerRPC → PyObject)
    (_subj : Subject) (cbData : CallbackHandlerData ViewerRPC ViewerRPCCallbacks) :
    List Event :=
  let rpc := cbData.data
  let rpcCB := cbData.userdata
  let pycb := rpcCB.GetCallback rpc.GetRPCType
  let pycb_data := rpcCB.GetCallbackData rpc.GetRPCType
  match pycb with
  | none => []
  | some pycb =>
    let args := args_ViewerRPC rpc
    let enlarged : List Event × Option PyObject :=
      match pycb_data with
      | none => ([], some args)
      | some d =>
        match args with
        | PyObject.None =>
          ([Event.Py_DECREF PyObject.None, Event.Py_INCREF (some d)],
            some (PyObject.Tuple (PyTuple_SET_ITEM (PyTuple_New 1) 0 (some d))))
        | PyObject.Tuple items =>
          let copied := copyItemsLoop items (PyTuple_Size items) 0
            (PyTuple_New (PyTuple_Size items + 1))
          match copied.2 with
          | none => (copied.1, none)
          | some tuple =>
            (copied.1 ++ [Event.Py_INCREF (some d), Event.Py_DECREF (PyObject.Tuple items)],
              some (PyObject.Tuple (PyTuple_SET_ITEM tuple (PyTuple_Size items) (some d))))
        | other => ([], some other)
    match enlarged.2 with
    | none => enlarged.1
    | some args =>
      let called : Event × Option PyObject :=
        match args with
        | PyObject.None =>
          (Event.PyObject_CallObject pycb none, py.PyObject_CallObject pycb none)
        | a => (Event.PyObject_Call pycb a, py.PyObject_Call pycb a)
      let ret := called.2
      enlarged.1 ++ [called.1]
        ++ (match ret with
            | none =>
              [Event.cerr "VISIT IS UNABLE TO CALL YOUR CALLBACK.",
               Event.cerr
                 "(This often occurs because the signature of your callback is incorrect.)",
               Event.cerr "The error message generated by Python is: ",
               Event.PyErr_Print]
            | some _ => [])
        ++ [Event.Py_DECREF args]
        ++ (match ret with
            | some r => [Event.Py_DECREF r]
            | none => [])

/-! ## Registration -/

/-- The handler functions of this file, by name. -/
inductive HandlerFn where
  | ViewerRPC_callback : HandlerFn
  | default_handler (Obj : String) : HandlerFn
  | plugin_state_callback_handler : HandlerFn
  deriving DecidableEq, Repr

/-- The work predicates of this file, by name. -/
inductive AddWorkFn where
  | ViewerRPC_addwork_callback : AddWorkFn
  | StateObject_addwork_callback : AddWorkFn
  deriving DecidableEq, Repr

/-- One call `cb->RegisterHandler(subject, name, handler, cbdata, addwork, addworkdata)`;
the two `void *` arguments are addresses. -/
structure RegisterHandlerCall where
  subject : Subject
  name : String
  handler : HandlerFn
  cbdata : Option Nat
  addwork : AddWorkFn
  addworkdata : Option Nat
  deriving DecidableEq, Repr

/-- Performing one call of `RegisterHandler` after the calls in `log`. -/
def RegisterHandler (log : List RegisterHandlerCall) (subject : Subject) (name : String)
    (handler : HandlerFn) (cbdata : Option Nat) (addwork : AddWorkFn)
    (addworkdata : Option Nat) : List RegisterHandlerCall :=
  log ++ [⟨subject, name, handler, cbdata, addwork, addworkdata⟩]

/-- The expansion of one `CALLBACK_ACTION(Obj, T, PyWrap)` line inside
`RegisterCallbackHandlers`. -/
def registerAction (cb : Nat) (viewer : ViewerProxy) (log : List RegisterHandlerCall)
    (e : StateObjectEntry) : List RegisterHandlerCall :=
  RegisterHandler log (viewer.GetViewerState.Get e.Obj).toSubject e.Obj
    (HandlerFn.default_handler e.Obj) none
    AddWorkFn.StateObject_addwork_callback (some cb)

/-- The two loops of `RegisterCallbackHandlers` over plugin state objects, from index `i`
on; `num` and `atts` are the count and the accessor of the loop. -/
def registerPluginLoop (cb : Nat) (num : Nat) (atts : Nat → AttributeSubject) :
    (fuel i : Nat) → List RegisterHandlerCall → List RegisterHandlerCall
  | 0, _, log => log
  | fuel + 1, i, log =>
    if i < num then
      registerPluginLoop cb num atts fuel (i + 1)
        (RegisterHandler log (atts i).toSubject (atts i).TypeName
          HandlerFn.plugin_state_callback_handler none
          AddWorkFn.StateObject_addwork_callback (some cb))
    else log

/-- The function `RegisterCallbackHandlers(cb, viewer, rpcCB)`: the calls of
`cb->RegisterHandler` it performs, in order.  `cb` and `rpcCB` are the addresses of the
callback manager and of the viewer RPC callback object. -/
def RegisterCallbackHandlers (cb : Nat) (viewer : ViewerProxy) (rpcCB : Nat) :
    List RegisterHandlerCall :=
  let log := RegisterHandler [] viewer.GetViewerState.GetLogRPC.toSubject ""
    HandlerFn.ViewerRPC_callback (some rpcCB)
    AddWorkFn.ViewerRPC_addwork_callback (some rpcCB)
  let log := SUPPORTED_STATE_OBJECTS.foldl (registerAction cb viewer) log
  let log := registerPluginLoop cb viewer.GetViewerState.GetNumPlotStateObjects
    viewer.GetViewerState.GetPlotAttributes
    viewer.GetViewerState.GetNumPlotStateObjects 0 log
  registerPluginLoop cb viewer.GetViewerState.GetNumOperatorStateObjects
    viewer.GetViewerState.GetOperatorAttributes
    viewer.GetViewerState.GetNumOperatorStateObjects 0 log

/-! ## Predicates used to state the lookup -/

/-- Whether the enabled plugin with index `j` has scripting info and attributes whose
type name is `t`. -/
def pluginMatches (pluginManager : PluginManager) (t : String) (j : Nat) : Bool :=
  match pluginManager.GetScriptingPluginInfo (pluginManager.GetEnabledID j) with
  | none => false
  | some info => decide (info.AllocAttributes.TypeName = t)

/-- Index `p` is the first enabled plugin, in index order, that has scripting info and
attributes whose type name is `t`. -/
def IsFirstMatch (pluginManager : PluginManager) (t : String) (p : Nat) : Prop :=
  p < pluginManager.GetNEnabledPlugins ∧ pluginMatches pluginManager t p = true ∧
    ∀ j, j < p → pluginMatches pluginManager t j = false

/-- Entry `m` is the first of the first `nMethods` entries of the method table of `info`
whose name is `t`. -/
def IsFirstMethod (info : ScriptingPluginInfo) (t : String) (m : Nat) : Prop :=
  m < info.nMethods ∧ (info.methodTable m).ml_name = t ∧
    ∀ k, k < m → (info.methodTable k).ml_name ≠ t

/-! ## Sample inputs -/

/-- An interpreter in which every call returns `None`. -/
def samplePython : Python :=
  ⟨fun _ _ => some PyObject.None, fun _ _ => some PyObject.None⟩

/-- Wrapper functions that wrap a state object into the object named by its address. -/
def sampleWrappers : String → AttributeSubject → PyObject :=
  fun _ atts => PyObject.Object atts.addr

/-- Scripting info of the Mesh plot: its constructor is the first of two methods. -/
def meshScriptingInfo : ScriptingPluginInfo :=
  ⟨⟨⟨10⟩, "MeshAttributes"⟩, 2,
    fun m => if m = 0 then ⟨"MeshAttributes", 100⟩ else ⟨"SetDefaultMeshAttributes", 101⟩⟩

/-- Scripting info of the Vector plot. -/
def vectorScriptingInfo : ScriptingPluginInfo :=
  ⟨⟨⟨11⟩, "VectorAttributes"⟩, 1, fun _ => ⟨"VectorAttributes", 110⟩⟩

/-- Scripting info of the Reflect operator. -/
def reflectScriptingInfo : ScriptingPluginInfo :=
  ⟨⟨⟨12⟩, "ReflectAttributes"⟩, 1, fun _ => ⟨"ReflectAttributes", 120⟩⟩

/-- A plot plugin manager with three enabled plugins, the first without scripting info. -/
def samplePlotPlugins : PluginManager :=
  ⟨3, fun i => if i = 0 then "Curve_1.0" else if i = 1 then "Mesh_1.0" else "Vector_1.0",
    fun id =>
      if id = "Mesh_1.0" then some meshScriptingInfo
      else if id = "Vector_1.0" then some vectorScriptingInfo
      else none⟩

/-- An operator plugin manager with one enabled plugin. -/
def sampleOperatorPlugins : PluginManager :=
  ⟨1, fun _ => "Reflect_1.0",
    fun id => if id = "Reflect_1.0" then some reflectScriptingInfo else none⟩

/-- A viewer state with two plot and one operator state objects. -/
def sampleViewerState : ViewerState :=
  ⟨⟨⟨⟨1⟩, "ViewerRPC"⟩, 3⟩, fun Obj => ⟨⟨1000 + Obj.length⟩, Obj⟩,
    2, fun i => if i = 0 then ⟨⟨20⟩, "MeshAttributes"⟩ else ⟨⟨21⟩, "VectorAttributes"⟩,
    1, fun _ => ⟨⟨30⟩, "ReflectAttributes"⟩⟩

/-- A viewer proxy over the sample plugin managers and viewer state. -/
def sampleViewer : ViewerProxy :=
  ⟨samplePlotPlugins, sampleOperatorPlugins, sampleViewerState⟩

/-- Handler data for a state object at address 40 with callback 1 and callback data 2. -/
def sampleCbData : CallbackHandlerData AttributeSubject Unit :=
  ⟨some (PyObject.Object 1), some (PyObject.Object 2), ⟨⟨40⟩, "PlotList"⟩, (), sampleViewer⟩

/-- Callbacks for viewer RPCs: RPC type 3 has callback 1 with data 2, RPC type 4 has
callback 5 without data, no other type has a callback. -/
def sampleRPCCallbacks : ViewerRPCCallbacks :=
  ⟨fun t => if t = 3 then some (PyObject.Object 1) else if t = 4 then some (PyObject.Object 5)
      else none,
    fun t => if t = 3 then some (PyObject.Object 2) else none⟩

/-- Handler data for a viewer RPC of the given type. -/
def sampleRPCData (rpcType : Nat) : CallbackHandlerData ViewerRPC ViewerRPCCallbacks :=
  ⟨none, none, ⟨⟨⟨1⟩, "ViewerRPC"⟩, rpcType⟩, sampleRPCCallbacks, sampleViewer⟩

/-! ## Lemmas on event lists -/

theorem pyCalls_append (a b : List Event) : pyCalls (a ++ b) = pyCalls a ++ pyCalls b := by
  induction a with
  | nil => rfl
  | cons x xs ih => cases x <;> simp [pyCalls, ih]

theorem pyCalls_decref_ret (ret : Option PyObject) :
    pyCalls (match ret with
      | some r => [Event.Py_DECREF r]
      | none => []) = [] := by
  cases ret <;> rfl

/-! ## Default handlers: theorems -/

/-- C1: for a line of the table and handler data with a callback, the default handler
calls the callback exactly once through `PyObject_Call`, with the 1-tuple of the wrapped
state when there is no callback data and with the 2-tuple of the wrapped state and the
callback data otherwise; the wrapped state is the line's wrapper applied to the data of
the handler data, and the result does not depend on the subject argument. -/
theorem default_handler_calls_pycb_once {U : Type} (py : Python)
    (wrappers : String → AttributeSubject → PyObject) (e : StateObjectEntry)
    (_he : e ∈ SUPPORTED_STATE_OBJECTS) (subj : Subject)
    (cbData : CallbackHandlerData AttributeSubject U) (pycb : PyObject)
    (hcb : cbData.pycb = some pycb) :
    (cbData.pycb_data = none →
      pyCalls (default_handler py wrappers e subj cbData)
        = [Event.PyObject_Call pycb
            (PyObject.Tuple [some (wrappers e.PyWrap cbData.data)])]) ∧
    (∀ d, cbData.pycb_data = some d →
      pyCalls (default_handler py wrappers e subj cbData)
        = [Event.PyObject_Call pycb
            (PyObject.Tuple [some (wrappers e.PyWrap cbData.data), some d])]) ∧
    (∀ subj', default_handler py wrappers e subj' cbData
        = default_handler py wrappers e subj cbData) := by
  refine ⟨?_, ?_, fun _ => rfl⟩
  · intro hd
    simp [default_handler, hcb, hd, pyCalls_append, pyCalls_decref_ret, pyCalls,
      PyTuple_New, PyTuple_SET_ITEM]
  · intro d hd
    simp [default_handler, hcb, hd, pyCalls_append, pyCalls_decref_ret, pyCalls,
      PyTuple_New, PyTuple_SET_ITEM]

/-- Witness of C1 at the `PlotList` line with callback 1 and callback data 2. -/
theorem default_handler_calls_pycb_once_witness :
    (⟨"PlotList", "PlotList", "PyPlotList_Wrap"⟩ : StateObjectEntry) ∈ SUPPORTED_STATE_OBJECTS ∧
    sampleCbData.pycb = some (PyObject.Object 1) ∧
    pyCalls (default_handler samplePython sampleWrappers
        ⟨"PlotList", "PlotList", "PyPlotList_Wrap"⟩ ⟨7⟩ sampleCbData)
      = [Event.PyObject_Call (PyObject.Object 1)
          (PyObject.Tuple [some (PyObject.Object 40), some (PyObject.Object 2)])] :=
  ⟨by decide, rfl,
    (default_handler_calls_pycb_once samplePython sampleWrappers
      ⟨"PlotList", "PlotList", "PyPlotList_Wrap"⟩ (by decide) ⟨7⟩ sampleCbData
      (PyObject.Object 1) rfl).2.1 (PyObject.Object 2) rfl⟩

/-! ## Work predicates: theorems -/

/-- C2: `ViewerRPC_addwork_callback` returns true exactly when the callback object has a
non-null callback for the RPC type of the subject, and false exactly when it has none. -/
theorem ViewerRPC_addwork_callback_iff (subj : ViewerRPC) (ptr : ViewerRPCCallbacks) :
    (ViewerRPC_addwork_callback subj ptr = true ↔ ptr.GetCallback subj.GetRPCType ≠ none) ∧
    (ViewerRPC_addwork_callback subj ptr = false ↔ ptr.GetCallback subj.GetRPCType = none) := by
  rcases h : ptr.GetCallback subj.GetRPCType with _ | c <;>
    simp [ViewerRPC_addwork_callback, h]

/-- C3: `StateObject_addwork_callback` returns true exactly when the callback manager has
a non-null callback for the subject, and false exactly when it has none. -/
theorem StateObject_addwork_callback_iff (subj : Subject) (ptr : CallbackManager) :
    (StateObject_addwork_callback subj ptr = true ↔ ptr.GetCallback subj ≠ none) ∧
    (StateObject_addwork_callback subj ptr = false ↔ ptr.GetCallback subj = none) := by
  rcases h : ptr.GetCallback subj with _ | c <;>
    simp [StateObject_addwork_callback, h]

/-! ## The viewer RPC handler: theorems -/

theorem pyCalls_unable (ret : Option PyObject) :
    pyCalls (match ret with
      | none =>
        [Event.cerr "VISIT IS UNABLE TO CALL YOUR CALLBACK.",
         Event.cerr
           "(This often occurs because the signature of your callback is incorrect.)",
         Event.cerr "The error message generated by Python is: ",
         Event.PyErr_Print]
      | some _ => []) = [] := by
  cases ret <;> rfl

/-- The copying loop performs no call. -/
theorem pyCalls_copyItemsLoop (args : List (Option PyObject)) :
    ∀ (fuel i : Nat) (tuple : List (Option PyObject)),
      pyCalls (copyItemsLoop args fuel i tuple).1 = [] := by
  intro fuel
  induction fuel with
  | zero => intro i tuple; rfl
  | succ k ih =>
    intro i tuple
    unfold copyItemsLoop
    split
    · split
      · rfl
      · simp [pyCalls, ih]
    · rfl

/-- The copying loop, started behind the items already copied, fills the slots of the
remaining items and leaves the last slot empty, provided none of the remaining items is
an empty slot. -/
theorem copyItemsLoop_fills (suf : List (Option PyObject)) :
    ∀ pre : List (Option PyObject), (∀ x, x ∈ suf → x ≠ none) →
      (copyItemsLoop (pre ++ suf) suf.length pre.length
          (pre ++ List.replicate (suf.length + 1) none)).2
        = some (pre ++ suf ++ [none]) := by
  induction suf with
  | nil => intro pre _; simp [copyItemsLoop]
  | cons x s ih =>
    intro pre hfilled
    have hx : x ≠ none := hfilled x (List.mem_cons_self _ _)
    obtain ⟨item, rfl⟩ := Option.ne_none_iff_exists'.mp hx
    have h := ih (pre ++ [some item]) (fun y hy => hfilled y (List.mem_cons_of_mem _ hy))
    simp only [List.append_assoc, List.singleton_append, List.length_append,
      List.length_singleton] at h
    unfold copyItemsLoop
    simp only [PyTuple_Size, PyTuple_GET_ITEM, PyTuple_SET_ITEM, List.length_append,
      List.length_cons]
    rw [if_pos (by omega)]
    simp only [List.getD_append_right _ _ _ _ (le_refl _), Nat.sub_self,
      List.getD_cons_zero, List.replicate_succ]
    rw [List.set_append_right _ _ (le_refl _)]
    simp only [Nat.sub_self, List.set_cons_zero]
    simpa [List.replicate_succ] using h

/-- The copying loop of `ViewerRPC_callback` as it is run on a tuple without empty slots:
the enlarged tuple holds the items of `args` followed by one empty slot. -/
theorem copyItemsLoop_all (items : List (Option PyObject))
    (hfilled : ∀ x, x ∈ items → x ≠ none) :
    (copyItemsLoop items (PyTuple_Size items) 0 (PyTuple_New (PyTuple_Size items + 1))).2
      = some (items ++ [none]) := by
  simpa [PyTuple_Size, PyTuple_New] using copyItemsLoop_fills items [] hfilled

/-- The copying loop, started behind the items already copied, yields no tuple when one
of the remaining items is an empty slot. -/
theorem copyItemsLoop_stops (suf : List (Option PyObject)) :
    ∀ (pre tuple : List (Option PyObject)), none ∈ suf →
      (copyItemsLoop (pre ++ suf) suf.length pre.length tuple).2 = none := by
  induction suf with
  | nil => intro pre tuple h; cases h
  | cons x s ih =>
    intro pre tuple hmem
    unfold copyItemsLoop
    simp only [PyTuple_Size, PyTuple_GET_ITEM, List.length_append, List.length_cons]
    rw [if_pos (by omega)]
    simp only [List.getD_append_right _ _ _ _ (le_refl _), Nat.sub_self,
      List.getD_cons_zero]
    cases x with
    | none => rfl
    | some item =>
      have hs : none ∈ s := by
        rcases List.mem_cons.mp hmem with h | h
        · cases h
        · exact h
      have h := ih (pre ++ [some item])
        (PyTuple_SET_ITEM tuple pre.length (some item)) hs
      simp only [List.append_assoc, List.singleton_append, List.length_append,
        List.length_singleton] at h
      simpa using h

/-- With callback data installed and a tuple of arguments that has an empty slot, the
handler stops in the copying loop: no call is made. -/
theorem ViewerRPC_callback_stops_at_null (py : Python)
    (args_ViewerRPC : ViewerRPC → PyObject) (subj : Subject)
    (cbData : CallbackHandlerData ViewerRPC ViewerRPCCallbacks) (pycb d : PyObject)
    (items : List (Option PyObject))
    (hcb : cbData.userdata.GetCallback cbData.data.GetRPCType = some pycb)
    (hdata : cbData.userdata.GetCallbackData cbData.data.GetRPCType = some d)
    (hargs : args_ViewerRPC cbData.data = PyObject.Tuple items) (hnull : none ∈ items) :
    pyCalls (ViewerRPC_callback py args_ViewerRPC subj cbData) = [] := by
  have hstop : (copyItemsLoop items (PyTuple_Size items) 0
      (PyTuple_New (PyTuple_Size items + 1))).2 = none := by
    simpa [PyTuple_Size] using copyItemsLoop_stops items [] _ hnull
  simp [ViewerRPC_callback, hcb, hdata, hargs, hstop, pyCalls_copyItemsLoop]

/-- C4: with a callback and non-null callback data installed for the type of the RPC, a
tuple of arguments, each of whose slots holds an item, is passed on enlarged by one slot
that holds the callback data, the original items first and in their order, and `None` is
replaced by the 1-tuple of the callback data; either way the callback is called exactly
once, through `PyObject_Call`. -/
theorem ViewerRPC_callback_appends_data (py : Python) (args_ViewerRPC : ViewerRPC → PyObject)
    (subj : Subject) (cbData : CallbackHandlerData ViewerRPC ViewerRPCCallbacks)
    (pycb d : PyObject)
    (hcb : cbData.userdata.GetCallback cbData.data.GetRPCType = some pycb)
    (hdata : cbData.userdata.GetCallbackData cbData.data.GetRPCType = some d) :
    (∀ items, args_ViewerRPC cbData.data = PyObject.Tuple items →
      (∀ x, x ∈ items → x ≠ none) →
      pyCalls (ViewerRPC_callback py args_ViewerRPC subj cbData)
          = [Event.PyObject_Call pycb (PyObject.Tuple (items ++ [some d]))] ∧
        (items ++ [some d]).length = items.length + 1 ∧
        (items ++ [some d]).take items.length = items ∧
        (items ++ [some d])[items.length]? = some (some d)) ∧
    (args_ViewerRPC cbData.data = PyObject.None →
      pyCalls (ViewerRPC_callback py args_ViewerRPC subj cbData)
        = [Event.PyObject_Call pycb (PyObject.Tuple [some d])]) := by
  constructor
  · intro items hargs hfilled
    refine ⟨?_, by simp, by simp, by simp⟩
    have hset : PyTuple_SET_ITEM (items ++ [none]) (PyTuple_Size items) (some d)
        = items ++ [some d] := by
      simp [PyTuple_SET_ITEM, PyTuple_Size]
    simp [ViewerRPC_callback, hcb, hdata, hargs, pyCalls_append, pyCalls_decref_ret,
      pyCalls_unable, pyCalls_copyItemsLoop, copyItemsLoop_all items hfilled, hset, pyCalls]
  · intro hargs
    simp [ViewerRPC_callback, hcb, hdata, hargs, pyCalls_append, pyCalls_decref_ret,
      pyCalls_unable, pyCalls, PyTuple_New, PyTuple_SET_ITEM]

/-- Witness of C4: RPC type 3 has callback 1 and data 2; the arguments are a 2-tuple. -/
theorem ViewerRPC_callback_appends_data_witness :
    sampleRPCCallbacks.GetCallback 3 = some (PyObject.Object 1) ∧
    sampleRPCCallbacks.GetCallbackData 3 = some (PyObject.Object 2) ∧
    (∀ x, x ∈ [some (PyObject.Long 8), some (PyObject.Long 9)] → x ≠ none) ∧
    pyCalls (ViewerRPC_callback samplePython
        (fun _ => PyObject.Tuple [some (PyObject.Long 8), some (PyObject.Long 9)])
        ⟨1⟩ (sampleRPCData 3))
      = [Event.PyObject_Call (PyObject.Object 1)
          (PyObject.Tuple ([some (PyObject.Long 8), some (PyObject.Long 9)]
            ++ [some (PyObject.Object 2)]))] :=
  ⟨rfl, rfl, by simp,
    ((ViewerRPC_callback_appends_data samplePython
      (fun _ => PyObject.Tuple [some (PyObject.Long 8), some (PyObject.Long 9)])
      ⟨1⟩ (sampleRPCData 3) (PyObject.Object 1) (PyObject.Object 2) rfl rfl).1
        [some (PyObject.Long 8), some (PyObject.Long 9)] rfl (by simp)).1⟩

/-- C5: with a callback but no callback data installed for the type of the RPC, arguments
that are `None` make the callback be called once through `PyObject_CallObject` with null
arguments, and any other arguments are handed unchanged to the one call of
`PyObject_Call`. -/
theorem ViewerRPC_callback_without_data (py : Python) (args_ViewerRPC : ViewerRPC → PyObject)
    (subj : Subject) (cbData : CallbackHandlerData ViewerRPC ViewerRPCCallbacks)
    (pycb : PyObject)
    (hcb : cbData.userdata.GetCallback cbData.data.GetRPCType = some pycb)
    (hdata : cbData.userdata.GetCallbackData cbData.data.GetRPCType = none) :
    (args_ViewerRPC cbData.data = PyObject.None →
      pyCalls (ViewerRPC_callback py args_ViewerRPC subj cbData)
        = [Event.PyObject_CallObject pycb none]) ∧
    (args_ViewerRPC cbData.data ≠ PyObject.None →
      pyCalls (ViewerRPC_callback py args_ViewerRPC subj cbData)
        = [Event.PyObject_Call pycb (args_ViewerRPC cbData.data)]) := by
  constructor
  · intro hargs
    simp [ViewerRPC_callback, hcb, hdata, hargs, pyCalls_append, pyCalls_decref_ret,
      pyCalls_unable, pyCalls]
  · intro hargs
    rcases h : args_ViewerRPC cbData.data with _ | v | items | ⟨m, self⟩ | id
    · exact absurd h hargs
    all_goals
      simp [ViewerRPC_callback, hcb, hdata, h, pyCalls_append, pyCalls_decref_ret,
        pyCalls_unable, pyCalls]

/-- Witness of C5: RPC type 4 has callback 5 and no data; the arguments are `None`. -/
theorem ViewerRPC_callback_without_data_witness :
    sampleRPCCallbacks.GetCallback 4 = some (PyObject.Object 5) ∧
    sampleRPCCallbacks.GetCallbackData 4 = none ∧
    pyCalls (ViewerRPC_callback samplePython (fun _ => PyObject.None) ⟨1⟩ (sampleRPCData 4))
      = [Event.PyObject_CallObject (PyObject.Object 5) none] :=
  ⟨rfl, rfl,
    (ViewerRPC_callback_without_data samplePython (fun _ => PyObject.None) ⟨1⟩
      (sampleRPCData 4) (PyObject.Object 5) rfl rfl).1 rfl⟩

/-! ## Constructor lookup: theorems -/

/-- What the first loop computes from index `i` on. -/
theorem pluginIndexLoop_spec (pm : PluginManager) (subj : AttributeSubject) :
    ∀ fuel i : Nat, i + fuel = pm.GetNEnabledPlugins →
      (pluginIndexLoop pm subj fuel i = -1 ∧
        ∀ j, i ≤ j → j < pm.GetNEnabledPlugins → pluginMatches pm subj.TypeName j = false) ∨
      (∃ p : Nat, pluginIndexLoop pm subj fuel i = (p : Int) ∧ i ≤ p ∧
        p < pm.GetNEnabledPlugins ∧ pluginMatches pm subj.TypeName p = true ∧
        ∀ j, i ≤ j → j < p → pluginMatches pm subj.TypeName j = false) := by
  intro fuel
  induction fuel with
  | zero =>
    intro i hi
    left
    exact ⟨rfl, fun j h1 h2 => by omega⟩
  | succ k ih =>
    intro i hi
    have hlt : i < pm.GetNEnabledPlugins := by omega
    have hrec := ih (i + 1) (by omega)
    unfold pluginIndexLoop
    rw [if_pos hlt]
    rcases hinfo : pm.GetScriptingPluginInfo (pm.GetEnabledID i) with _ | info
    · have hi0 : pluginMatches pm subj.TypeName i = false := by
        simp [pluginMatches, hinfo]
      simp only [hinfo]
      rcases hrec with ⟨h1, h2⟩ | ⟨p, h1, h2, h3, h4, h5⟩
      · left
        refine ⟨h1, fun j hj1 hj2 => ?_⟩
        rcases Nat.eq_or_lt_of_le hj1 with rfl | hlt2
        · exact hi0
        · exact h2 j hlt2 hj2
      · right
        refine ⟨p, h1, by omega, h3, h4, fun j hj1 hj2 => ?_⟩
        rcases Nat.eq_or_lt_of_le hj1 with rfl | hlt2
        · exact hi0
        · exact h5 j hlt2 hj2
    · simp only [hinfo]
      by_cases hty : info.AllocAttributes.TypeName = subj.TypeName
      · rw [if_pos hty]
        right
        refine ⟨i, rfl, le_refl _, hlt, ?_, fun j hj1 hj2 => by omega⟩
        simp [pluginMatches, hinfo, hty]
      · rw [if_neg hty]
        have hi0 : pluginMatches pm subj.TypeName i = false := by
          simp [pluginMatches, hinfo, hty]
        rcases hrec with ⟨h1, h2⟩ | ⟨p, h1, h2, h3, h4, h5⟩
        · left
          refine ⟨h1, fun j hj1 hj2 => ?_⟩
          rcases Nat.eq_or_lt_of_le hj1 with rfl | hlt2
          · exact hi0
          · exact h2 j hlt2 hj2
        · right
          refine ⟨p, h1, by omega, h3, h4, fun j hj1 hj2 => ?_⟩
          rcases Nat.eq_or_lt_of_le hj1 with rfl | hlt2
          · exact hi0
          · exact h5 j hlt2 hj2

/-- What the second loop computes from entry `m` on. -/
theorem methodLoop_spec (info : ScriptingPluginInfo) (subj : AttributeSubject) :
    ∀ fuel m : Nat, m + fuel = info.nMethods →
      (methodLoop info subj fuel m = none ∧
        ∀ k, m ≤ k → k < info.nMethods → (info.methodTable k).ml_name ≠ subj.TypeName) ∨
      (∃ q : Nat, methodLoop info subj fuel m
          = some (PyObject.CFunction (info.methodTable q) PyObject.None) ∧
        m ≤ q ∧ q < info.nMethods ∧ (info.methodTable q).ml_name = subj.TypeName ∧
        ∀ k, m ≤ k → k < q → (info.methodTable k).ml_name ≠ subj.TypeName) := by
  intro fuel
  induction fuel with
  | zero =>
    intro m hm
    left
    exact ⟨rfl, fun k h1 h2 => by omega⟩
  | succ n ih =>
    intro m hm
    have hlt : m < info.nMethods := by omega
    have hrec := ih (m + 1) (by omega)
    unfold methodLoop
    rw [if_pos hlt]
    simp only []
    by_cases hname : subj.TypeName = (info.methodTable m).ml_name
    · rw [if_pos hname]
      right
      exact ⟨m, rfl, le_refl _, hlt, hname.symm, fun k h1 h2 => by omega⟩
    · rw [if_neg hname]
      have hm0 : (info.methodTable m).ml_name ≠ subj.TypeName := fun h => hname h.symm
      rcases hrec with ⟨h1, h2⟩ | ⟨q, h1, h2, h3, h4, h5⟩
      · left
        refine ⟨h1, fun k hk1 hk2 => ?_⟩
        rcases Nat.eq_or_lt_of_le hk1 with rfl | hlt2
        · exact hm0
        · exact h2 k hlt2 hk2
      · right
        refine ⟨q, h1, by omega, h3, h4, fun k hk1 hk2 => ?_⟩
        rcases Nat.eq_or_lt_of_le hk1 with rfl | hlt2
        · exact hm0
        · exact h5 k hlt2 hk2

/-- Either no enabled plugin matches, or there is a first one that does. -/
theorem firstMatch_cases (pm : PluginManager) (t : String) :
    (∀ j, j < pm.GetNEnabledPlugins → pluginMatches pm t j = false) ∨
      ∃ p, IsFirstMatch pm t p := by
  rcases pluginIndexLoop_spec pm ⟨⟨0⟩, t⟩ pm.GetNEnabledPlugins 0 (by omega) with
    ⟨_, h⟩ | ⟨p, _, _, h3, h4, h5⟩
  · exact Or.inl fun j hj => h j (Nat.zero_le _) hj
  · exact Or.inr ⟨p, h3, h4, fun j hj => h5 j (Nat.zero_le _) hj⟩

/-- The first matching plugin is unique. -/
theorem IsFirstMatch_unique (pm : PluginManager) (t : String) (p q : Nat)
    (hp : IsFirstMatch pm t p) (hq : IsFirstMatch pm t q) : p = q := by
  rcases Nat.lt_trichotomy p q with h | h | h
  · have := hq.2.2 p h
    rw [hp.2.1] at this
    cases this
  · exact h
  · have := hp.2.2 q h
    rw [hq.2.1] at this
    cases this

/-- A matching plugin has scripting info whose attributes carry the type name. -/
theorem pluginMatches_info (pm : PluginManager) (t : String) (p : Nat)
    (h : pluginMatches pm t p = true) :
    ∃ info, pm.GetScriptingPluginInfo (pm.GetEnabledID p) = some info ∧
      info.AllocAttributes.TypeName = t := by
  unfold pluginMatches at h
  rcases hinfo : pm.GetScriptingPluginInfo (pm.GetEnabledID p) with _ | info
  · simp [hinfo] at h
  · simp [hinfo] at h
    exact ⟨info, rfl, h⟩

/-- With a first matching plugin the lookup is the search of that plugin's method
table. -/
theorem constructorFunction_of_first (pm : PluginManager) (subj : AttributeSubject)
    (p : Nat) (info : ScriptingPluginInfo) (hp : IsFirstMatch pm subj.TypeName p)
    (hinfo : pm.GetScriptingPluginInfo (pm.GetEnabledID p) = some info) :
    constructorFunction pm subj = methodLoop info subj info.nMethods 0 := by
  rcases pluginIndexLoop_spec pm subj pm.GetNEnabledPlugins 0 (by omega) with
    ⟨_, h⟩ | ⟨q, h1, _, h3, h4, h5⟩
  · have := h p (Nat.zero_le _) hp.1
    rw [hp.2.1] at this
    cases this
  · have hq : IsFirstMatch pm subj.TypeName q :=
      ⟨h3, h4, fun j hj => h5 j (Nat.zero_le _) hj⟩
    have hpq : q = p := IsFirstMatch_unique pm subj.TypeName q p hq hp
    subst hpq
    unfold constructorFunction
    simp only [h1]
    rw [if_pos (by omega)]
    simp [hinfo]

/-- Without a matching plugin the lookup returns null. -/
theorem constructorFunction_of_none (pm : PluginManager) (subj : AttributeSubject)
    (h : ∀ j, j < pm.GetNEnabledPlugins → pluginMatches pm subj.TypeName j = false) :
    constructorFunction pm subj = none := by
  rcases pluginIndexLoop_spec pm subj pm.GetNEnabledPlugins 0 (by omega) with
    ⟨h1, _⟩ | ⟨q, _, _, h3, h4, _⟩
  · unfold constructorFunction
    simp [h1]
  · have := h q h3
    rw [h4] at this
    cases this

/-- The search of a method table returns the function object of the first entry with the
name, and null when no entry has it. -/
theorem methodLoop_first (info : ScriptingPluginInfo) (subj : AttributeSubject) :
    (∀ m, IsFirstMethod info subj.TypeName m →
      methodLoop info subj info.nMethods 0
        = some (PyObject.CFunction (info.methodTable m) PyObject.None)) ∧
    (methodLoop info subj info.nMethods 0 = none ↔
      ∀ m, m < info.nMethods → (info.methodTable m).ml_name ≠ subj.TypeName) := by
  rcases methodLoop_spec info subj info.nMethods 0 (by omega) with
    ⟨h1, h2⟩ | ⟨q, h1, _, h3, h4, h5⟩
  · refine ⟨fun m hm => absurd hm.2.1 (h2 m (Nat.zero_le _) hm.1), ?_⟩
    exact ⟨fun _ m hm => h2 m (Nat.zero_le _) hm, fun _ => h1⟩
  · refine ⟨fun m hm => ?_, ?_⟩
    · have hmq : m = q := by
        rcases Nat.lt_trichotomy m q with h | h | h
        · exact absurd hm.2.1 (h5 m (Nat.zero_le _) h)
        · exact h
        · exact absurd h4 (hm.2.2 q h)
      rw [h1, hmq]
    · rw [h1]
      exact ⟨fun h => (by cases h), fun h => absurd h4 (h q h3)⟩

/-- Agreement of two plugin managers on the enabled plugins up to index `p` carries the
first match over. -/
theorem IsFirstMatch_of_agree (pm pm' : PluginManager) (t : String) (p : Nat)
    (hp : IsFirstMatch pm t p) (hn : p < pm'.GetNEnabledPlugins)
    (hid : ∀ j, j ≤ p → pm'.GetEnabledID j = pm.GetEnabledID j)
    (hinfo : ∀ j, j ≤ p → pm'.GetScriptingPluginInfo (pm.GetEnabledID j)
      = pm.GetScriptingPluginInfo (pm.GetEnabledID j)) :
    IsFirstMatch pm' t p := by
  have hm : ∀ j, j ≤ p → pluginMatches pm' t j = pluginMatches pm t j := by
    intro j hj
    unfold pluginMatches
    rw [hid j hj, hinfo j hj]
  refine ⟨hn, ?_, fun j hj => ?_⟩
  · rw [hm p (le_refl _)]
    exact hp.2.1
  · rw [hm j (Nat.le_of_lt hj)]
    exact hp.2.2 j hj

/-- C7: let `p` be the first enabled plot plugin, in index order, that has scripting info
and whose attributes have the type name of the subject.  The lookup returns the function
object built from the first of the first `nMethods` entries of the method table of `p`
whose name is that type name; it returns null exactly when there is no such plugin or no
such entry; and the result is the same for every plugin manager that agrees on the
enabled plugins up to `p`, whatever its later plugins are.  Plugins without scripting
info never match and are passed over. -/
theorem GetPlotConstructorFunction_spec (subj : AttributeSubject) (viewer : ViewerProxy) :
    (∀ p info, IsFirstMatch viewer.GetPlotPluginManager subj.TypeName p →
      viewer.GetPlotPluginManager.GetScriptingPluginInfo
          (viewer.GetPlotPluginManager.GetEnabledID p) = some info →
      (∀ m, IsFirstMethod info subj.TypeName m →
        GetPlotConstructorFunction subj viewer
          = some (PyObject.CFunction (info.methodTable m) PyObject.None)) ∧
      (GetPlotConstructorFunction subj viewer = none ↔
        ∀ m, m < info.nMethods → (info.methodTable m).ml_name ≠ subj.TypeName) ∧
      (∀ viewer' : ViewerProxy,
        p < viewer'.GetPlotPluginManager.GetNEnabledPlugins →
        (∀ j, j ≤ p → viewer'.GetPlotPluginManager.GetEnabledID j
          = viewer.GetPlotPluginManager.GetEnabledID j) →
        (∀ j, j ≤ p → viewer'.GetPlotPluginManager.GetScriptingPluginInfo
            (viewer.GetPlotPluginManager.GetEnabledID j)
          = viewer.GetPlotPluginManager.GetScriptingPluginInfo
            (viewer.GetPlotPluginManager.GetEnabledID j)) →
        GetPlotConstructorFunction subj viewer'
          = GetPlotConstructorFunction subj viewer)) ∧
    ((∀ j, j < viewer.GetPlotPluginManager.GetNEnabledPlugins →
        pluginMatches viewer.GetPlotPluginManager subj.TypeName j = false) →
      GetPlotConstructorFunction subj viewer = none) ∧
    (GetPlotConstructorFunction subj viewer = none ↔
      (¬ ∃ p, IsFirstMatch viewer.GetPlotPluginManager subj.TypeName p) ∨
      ∃ p info, IsFirstMatch viewer.GetPlotPluginManager subj.TypeName p ∧
        viewer.GetPlotPluginManager.GetScriptingPluginInfo
          (viewer.GetPlotPluginManager.GetEnabledID p) = some info ∧
        ∀ m, m < info.nMethods → (info.methodTable m).ml_name ≠ subj.TypeName) := by
  have hfirst : ∀ p info, IsFirstMatch viewer.GetPlotPluginManager subj.TypeName p →
      viewer.GetPlotPluginManager.GetScriptingPluginInfo
          (viewer.GetPlotPluginManager.GetEnabledID p) = some info →
      GetPlotConstructorFunction subj viewer = methodLoop info subj info.nMethods 0 :=
    fun p info hp hinfo =>
      constructorFunction_of_first viewer.GetPlotPluginManager subj p info hp hinfo
  refine ⟨fun p info hp hinfo => ⟨fun m hm => ?_, ?_, fun viewer' hn hid hagree => ?_⟩,
    fun h => constructorFunction_of_none viewer.GetPlotPluginManager subj h, ?_⟩
  · rw [hfirst p info hp hinfo]
    exact (methodLoop_first info subj).1 m hm
  · rw [hfirst p info hp hinfo]
    exact (methodLoop_first info subj).2
  · have hp' := IsFirstMatch_of_agree viewer.GetPlotPluginManager
      viewer'.GetPlotPluginManager subj.TypeName p hp hn hid hagree
    have hinfo' : viewer'.GetPlotPluginManager.GetScriptingPluginInfo
        (viewer'.GetPlotPluginManager.GetEnabledID p) = some info := by
      rw [hid p (le_refl _), hagree p (le_refl _)]
      exact hinfo
    rw [hfirst p info hp hinfo]
    exact constructorFunction_of_first viewer'.GetPlotPluginManager subj p info hp' hinfo'
  · rcases firstMatch_cases viewer.GetPlotPluginManager subj.TypeName with hnone | ⟨p, hp⟩
    · have hno : ¬ ∃ p, IsFirstMatch viewer.GetPlotPluginManager subj.TypeName p := by
        rintro ⟨q, hq⟩
        have := hnone q hq.1
        rw [hq.2.1] at this
        cases this
      exact ⟨fun _ => Or.inl hno,
        fun _ => constructorFunction_of_none viewer.GetPlotPluginManager subj hnone⟩
    · obtain ⟨info, hinfo, _⟩ :=
        pluginMatches_info viewer.GetPlotPluginManager subj.TypeName p hp.2.1
      constructor
      · intro hnull
        right
        refine ⟨p, info, hp, hinfo, ?_⟩
        rw [hfirst p info hp hinfo] at hnull
        exact (methodLoop_first info subj).2.1 hnull
      · rintro (hno | ⟨q, info', hq, hinfo', hall⟩)
        · exact absurd ⟨p, hp⟩ hno
        · rw [hfirst q info' hq hinfo']
          exact (methodLoop_first info' subj).2.2 hall

/-- Witness of C7: the Vector plot is the third enabled plugin, behind one without
scripting info and the Mesh plot; its constructor is the first entry of its table. -/
theorem GetPlotConstructorFunction_spec_witness :
    IsFirstMatch sampleViewer.GetPlotPluginManager "VectorAttributes" 2 ∧
    sampleViewer.GetPlotPluginManager.GetScriptingPluginInfo
      (sampleViewer.GetPlotPluginManager.GetEnabledID 2) = some vectorScriptingInfo ∧
    IsFirstMethod vectorScriptingInfo "VectorAttributes" 0 ∧
    GetPlotConstructorFunction ⟨⟨21⟩, "VectorAttributes"⟩ sampleViewer
      = some (PyObject.CFunction ⟨"VectorAttributes", 110⟩ PyObject.None) :=
  ⟨⟨by decide, by decide, by decide⟩, rfl, ⟨by decide, by decide, by decide⟩,
    ((GetPlotConstructorFunction_spec ⟨⟨21⟩, "VectorAttributes"⟩ sampleViewer).1 2
      vectorScriptingInfo ⟨by decide, by decide, by decide⟩ rfl).1 0
        ⟨by decide, by decide, by decide⟩⟩

/-- C6: `GetPyObjectPluginAttributes` returns null and performs no interpreter operation
when neither lookup finds a constructor; otherwise it calls the constructor exactly once,
with the 1-tuple of the integer 1 when `useCurrent` is true and 0 when it is false, and
returns the result of that call.  The constructor is the plot constructor whenever that
one is found, in which case the result does not depend on the operator plugins, and the
operator constructor only when the plot lookup returns null. -/
theorem GetPyObjectPluginAttributes_spec (py : Python) (subj : AttributeSubject)
    (useCurrent : Bool) (viewer : ViewerProxy) :
    (GetPlotConstructorFunction subj viewer = none →
      GetOperatorConstructorFunction subj viewer = none →
      GetPyObjectPluginAttributes py subj useCurrent viewer = (none, [])) ∧
    (∀ ctor, GetPlotConstructorFunction subj viewer = some ctor →
      (GetPyObjectPluginAttributes py subj useCurrent viewer).1
          = py.PyObject_Call ctor
              (PyObject.Tuple [some (PyObject.Long (if useCurrent = true then 1 else 0))]) ∧
        pyCalls (GetPyObjectPluginAttributes py subj useCurrent viewer).2
          = [Event.PyObject_Call ctor
              (PyObject.Tuple [some (PyObject.Long (if useCurrent = true then 1 else 0))])] ∧
        ∀ viewer' : ViewerProxy,
          viewer'.GetPlotPluginManager = viewer.GetPlotPluginManager →
          GetPyObjectPluginAttributes py subj useCurrent viewer'
            = GetPyObjectPluginAttributes py subj useCurrent viewer) ∧
    (∀ ctor, GetPlotConstructorFunction subj viewer = none →
      GetOperatorConstructorFunction subj viewer = some ctor →
      (GetPyObjectPluginAttributes py subj useCurrent viewer).1
          = py.PyObject_Call ctor
              (PyObject.Tuple [some (PyObject.Long (if useCurrent = true then 1 else 0))]) ∧
        pyCalls (GetPyObjectPluginAttributes py subj useCurrent viewer).2
          = [Event.PyObject_Call ctor
              (PyObject.Tuple [some (PyObject.Long (if useCurrent = true then 1 else 0))])]) := by
  refine ⟨fun h1 h2 => ?_, fun ctor h1 => ⟨?_, ?_, fun viewer' hv => ?_⟩,
    fun ctor h1 h2 => ⟨?_, ?_⟩⟩
  · simp [GetPyObjectPluginAttributes, h1, h2]
  · simp [GetPyObjectPluginAttributes, h1, PyTuple_New, PyTuple_SET_ITEM]
  · simp [GetPyObjectPluginAttributes, h1, PyTuple_New, PyTuple_SET_ITEM, pyCalls]
  · have h1' : GetPlotConstructorFunction subj viewer' = some ctor := by
      unfold GetPlotConstructorFunction at h1 ⊢
      rw [hv]
      exact h1
    simp [GetPyObjectPluginAttributes, h1, h1']
  · simp [GetPyObjectPluginAttributes, h1, h2, PyTuple_New, PyTuple_SET_ITEM]
  · simp [GetPyObjectPluginAttributes, h1, h2, PyTuple_New, PyTuple_SET_ITEM, pyCalls]

/-- Witness of C6: the Reflect attributes belong to no plot plugin, so the constructor of
the Reflect operator is called, here with 0 for the default attributes. -/
theorem GetPyObjectPluginAttributes_spec_witness :
    GetPlotConstructorFunction ⟨⟨30⟩, "ReflectAttributes"⟩ sampleViewer = none ∧
    GetOperatorConstructorFunction ⟨⟨30⟩, "ReflectAttributes"⟩ sampleViewer
      = some (PyObject.CFunction ⟨"ReflectAttributes", 120⟩ PyObject.None) ∧
    pyCalls (GetPyObjectPluginAttributes samplePython ⟨⟨30⟩, "ReflectAttributes"⟩ false
        sampleViewer).2
      = [Event.PyObject_Call (PyObject.CFunction ⟨"ReflectAttributes", 120⟩ PyObject.None)
          (PyObject.Tuple [some (PyObject.Long 0)])] :=
  ⟨rfl, rfl,
    ((GetPyObjectPluginAttributes_spec samplePython ⟨⟨30⟩, "ReflectAttributes"⟩ false
      sampleViewer).2.2
        (PyObject.CFunction ⟨"ReflectAttributes", 120⟩ PyObject.None) rfl rfl).2⟩

/-! ## Registration: theorems -/

/-- The expansion of the table appends one call per line, in table order. -/
theorem foldl_registerAction (cb : Nat) (viewer : ViewerProxy) :
    ∀ (table : List StateObjectEntry) (log : List RegisterHandlerCall),
      table.foldl (registerAction cb viewer) log
        = log ++ table.map (fun e =>
            (⟨(viewer.GetViewerState.Get e.Obj).toSubject, e.Obj,
              HandlerFn.default_handler e.Obj, none,
              AddWorkFn.StateObject_addwork_callback, some cb⟩ : RegisterHandlerCall)) := by
  intro table
  induction table with
  | nil => intro log; simp
  | cons e es ih =>
    intro log
    simp [List.foldl_cons, ih, registerAction, RegisterHandler]

/-- A loop over plugin state objects appends one call per remaining index, in order. -/
theorem registerPluginLoop_spec (cb num : Nat) (atts : Nat → AttributeSubject) :
    ∀ (fuel i : Nat) (log : List RegisterHandlerCall), i + fuel = num →
      registerPluginLoop cb num atts fuel i log
        = log ++ (List.range' i fuel).map (fun k =>
            (⟨(atts k).toSubject, (atts k).TypeName,
              HandlerFn.plugin_state_callback_handler, none,
              AddWorkFn.StateObject_addwork_callback, some cb⟩ : RegisterHandlerCall)) := by
  intro fuel
  induction fuel with
  | zero => intro i log _; simp [registerPluginLoop]
  | succ n ih =>
    intro i log hi
    unfold registerPluginLoop
    rw [if_pos (by omega), ih (i + 1) _ (by omega)]
    simp [RegisterHandler, List.range'_succ]

/-- C8: `RegisterCallbackHandlers` performs these calls of `RegisterHandler`, in this
order and no others: one for the log RPC subject, unnamed, with `ViewerRPC_callback` and
`ViewerRPC_addwork_callback`, both with `rpcCB` as data; one per line of the table of 26
supported state objects, in table order, for the subject `Get<Obj>()` under the name
`Obj` with `default_handler_<Obj>` and `StateObject_addwork_callback` with `cb` as data;
one per plot state object `0..P-1` and then one per operator state object `0..O-1`, each
under its own type name with `plugin_state_callback_handler` and
`StateObject_addwork_callback` with `cb` as data.  That makes `1 + 26 + P + O` calls. -/
theorem RegisterCallbackHandlers_spec (cb : Nat) (viewer : ViewerProxy) (rpcCB : Nat) :
    RegisterCallbackHandlers cb viewer rpcCB
      = [(⟨viewer.GetViewerState.GetLogRPC.toSubject, "",
            HandlerFn.ViewerRPC_callback, some rpcCB,
            AddWorkFn.ViewerRPC_addwork_callback, some rpcCB⟩ : RegisterHandlerCall)]
        ++ SUPPORTED_STATE_OBJECTS.map (fun e =>
            (⟨(viewer.GetViewerState.Get e.Obj).toSubject, e.Obj,
              HandlerFn.default_handler e.Obj, none,
              AddWorkFn.StateObject_addwork_callback, some cb⟩ : RegisterHandlerCall))
        ++ (List.range viewer.GetViewerState.GetNumPlotStateObjects).map (fun i =>
            (⟨(viewer.GetViewerState.GetPlotAttributes i).toSubject,
              (viewer.GetViewerState.GetPlotAttributes i).TypeName,
              HandlerFn.plugin_state_callback_handler, none,
              AddWorkFn.StateObject_addwork_callback, some cb⟩ : RegisterHandlerCall))
        ++ (List.range viewer.GetViewerState.GetNumOperatorStateObjects).map (fun i =>
            (⟨(viewer.GetViewerState.GetOperatorAttributes i).toSubject,
              (viewer.GetViewerState.GetOperatorAttributes i).TypeName,
              HandlerFn.plugin_state_callback_handler, none,
              AddWorkFn.StateObject_addwork_callback, some cb⟩ : RegisterHandlerCall)) ∧
    SUPPORTED_STATE_OBJECTS.length = 26 ∧
    (RegisterCallbackHandlers cb viewer rpcCB).length
      = 1 + 26 + viewer.GetViewerState.GetNumPlotStateObjects
          + viewer.GetViewerState.GetNumOperatorStateObjects := by
  have heq : RegisterCallbackHandlers cb viewer rpcCB
      = [(⟨viewer.GetViewerState.GetLogRPC.toSubject, "",
            HandlerFn.ViewerRPC_callback, some rpcCB,
            AddWorkFn.ViewerRPC_addwork_callback, some rpcCB⟩ : RegisterHandlerCall)]
        ++ SUPPORTED_STATE_OBJECTS.map (fun e =>
            (⟨(viewer.GetViewerState.Get e.Obj).toSubject, e.Obj,
              HandlerFn.default_handler e.Obj, none,
              AddWorkFn.StateObject_addwork_callback, some cb⟩ : RegisterHandlerCall))
        ++ (List.range viewer.GetViewerState.GetNumPlotStateObjects).map (fun i =>
            (⟨(viewer.GetViewerState.GetPlotAttributes i).toSubject,
              (viewer.GetViewerState.GetPlotAttributes i).TypeName,
              HandlerFn.plugin_state_callback_handler, none,
              AddWorkFn.StateObject_addwork_callback, some cb⟩ : RegisterHandlerCall))
        ++ (List.range viewer.GetViewerState.GetNumOperatorStateObjects).map (fun i =>
            (⟨(viewer.GetViewerState.GetOperatorAttributes i).toSubject,
              (viewer.GetViewerState.GetOperatorAttributes i).TypeName,
              HandlerFn.plugin_state_callback_handler, none,
              AddWorkFn.StateObject_addwork_callback, some cb⟩ : RegisterHandlerCall)) := by
    unfold RegisterCallbackHandlers
    simp only [foldl_registerAction]
    rw [registerPluginLoop_spec _ _ _ _ 0 _ (by omega),
      registerPluginLoop_spec _ _ _ _ 0 _ (by omega)]
    simp only [RegisterHandler, List.nil_append, List.range_eq_range']
  have hlen : SUPPORTED_STATE_OBJECTS.length = 26 := by decide
  refine ⟨heq, hlen, ?_⟩
  rw [heq]
  simp only [List.length_append, List.length_map, List.length_range, List.length_singleton,
    hlen]

end CallbackHandlers
